import Mathlib

/-!
Shallow embedding of the telemetry acquisition engine of `atools`
(`src/fs/sc/datareaderthread.cpp`): the data model (`SimConnectData`,
`WeatherRequest`), the per-cycle fetch (`DataReaderThread::fetchData`), the
main loop of `DataReaderThread::run`, the weather submission path
(`DataReaderThread::setWeatherRequest`), the replay-file validation
(`DataReaderThread::setupReplay`), the record/playback framing, and the
reconnect loop (`DataReaderThread::connectToSimulator`).

Components whose sources are not part of the sampled tree
(`SimConnectData`'s serialization, `SimConnectHandler`'s weather-request
slot, the header constants of `datareaderthread.h`) are modelled from the
specification and carry a doc comment saying so.
-/

namespace Atools

/-- Status of a packet, as checked by `data.getStatus() == OK` in `run`.
Modelled from the spec: `status` is `OK | ERROR` (`statusText` present on
error). -/
inductive ScStatus where
  | ok
  | error
deriving DecidableEq, Repr

/-- Telemetry/weather envelope `SimConnectData`. Modelled from the spec data
model (the class itself is not under `src/`): `packetId`,
`timestampEpochSeconds` (here `packetTimestamp`), `status`, `statusText`,
`metars` (station identifier to report text), and an opaque `payload`. -/
structure SimConnectData where
  packetId : Nat
  packetTimestamp : Nat
  status : ScStatus
  statusText : String
  metars : List (String × String)
  payload : List Nat
deriving DecidableEq, Repr

/-- Modelled from the spec: a default-constructed `SimConnectData()` (the
dummy weather reply posted by `setWeatherRequest`) has `packetId = 0`,
status OK and an empty `metars` mapping. -/
def SimConnectData.empty : SimConnectData :=
  { packetId := 0, packetTimestamp := 0, status := ScStatus.ok,
    statusText := "", metars := [], payload := [] }

/-- Weather query: a validity flag plus a query descriptor. Modelled from the
spec (`WeatherRequest` is not under `src/`). -/
structure WeatherRequest where
  valid : Bool
  descriptor : String
deriving DecidableEq, Repr

/-- Modelled from the spec: a default-constructed `WeatherRequest()` (used by
`fetchData` to clear the slot) is invalid. -/
def WeatherRequest.empty : WeatherRequest :=
  { valid := false, descriptor := "" }

/-- The protocol adapter's observable state for one cycle: the code only
distinguishes `getState() == STATEOK` from everything else. Modelled from
the spec / the missing `simconnecthandler.h`. -/
inductive HandlerState where
  | stateOk
  | stateFailed
deriving DecidableEq, Repr

/-- The part of `SimConnectHandler` the claims depend on. Modelled from the
spec: the handler keeps a single weather-request slot
(`addWeatherRequest` / `getWeatherRequest`), at most one pending query. -/
structure Handler where
  weatherRequest : WeatherRequest
deriving DecidableEq, Repr

/-- Modelled from the spec: `SimConnectHandler::addWeatherRequest` atomically
replaces the single pending slot (latest wins, no queue). -/
def Handler.addWeatherRequest (h : Handler) (r : WeatherRequest) : Handler :=
  { h with weatherRequest := r }

/-- Oracle for one cycle's interaction with the adapter and the clock:
the outcome of `handler->fetchData`, the telemetry data it fills, the data
`handler->fetchWeatherData` would produce for a given request, the adapter
state `handler->getState()`, the liveness answer `handler->isSimRunning()`,
and the current time. -/
structure FetchEnv where
  fetchOk : Bool
  fetched : SimConnectData
  weatherFetch : WeatherRequest → SimConnectData
  handlerState : HandlerState
  simRunning : Bool
  now : Nat

/-- Mutable state of `DataReaderThread` relevant to the claims: the handler,
the telemetry id counter `nextPacketId`, the `connected` flag, and whether
the playback (`loadReplayFile`) and record (`saveReplayFile`) handles are
open (with the playback read position). `nextPacketId` starts at 1
(modelled from the spec; the initializer lives in the missing header). -/
structure DataReaderState where
  handler : Handler
  nextPacketId : Nat
  connected : Bool
  loadReplayOpen : Bool
  replayPos : Nat
  saveReplayOpen : Bool
deriving Repr

/-- Embedding of `DataReaderThread::fetchData` (datareaderthread.cpp:171):
under the handler mutex, if the handler's weather request is valid, fetch
weather, force `packetId = 0` and do not touch `nextPacketId`; otherwise
fetch telemetry and assign `nextPacketId++` (incremented even when the fetch
fails). Both branches stamp the current time and clear the weather slot with
a default `WeatherRequest()`. Returns (retval, data, new state). -/
def fetchData (st : DataReaderState) (env : FetchEnv) :
    Bool × SimConnectData × DataReaderState :=
  if st.handler.weatherRequest.valid then
    let data := env.weatherFetch st.handler.weatherRequest
    let data := { data with packetId := 0, packetTimestamp := env.now }
    (true, data, { st with handler := st.handler.addWeatherRequest WeatherRequest.empty })
  else
    let data := { env.fetched with packetId := st.nextPacketId, packetTimestamp := env.now }
    (env.fetchOk, data,
      { st with handler := st.handler.addWeatherRequest WeatherRequest.empty,
                nextPacketId := st.nextPacketId + 1 })

/-- Observable actions of the loop: host notifications
(`postSimConnectData`, `postLogMessage`, `disconnectedFromSimulator`), a
record-file append (`data.write(saveReplayFile)`), and entry into
`connectToSimulator` (abstracted as one event). -/
inductive Event where
  | postData (d : SimConnectData)
  | logMessage (text : String) (isError : Bool)
  | disconnectedFromSim
  | connectAttempt
  | record (d : SimConnectData)
deriving DecidableEq, Repr

/-- Embedding of the live/Recording arm of the main loop body
(datareaderthread.cpp:116): on `fetchData` success, post the packet and
append it to the record file only when the file is open and
`packetId > 0`; on failure with `getState() == STATEOK`, do nothing; on
failure with an error state, clear `connected` and notify disconnect, and
additionally re-run `connectToSimulator` when the sim is not running
(abstracted as a `connectAttempt` that ends connected). -/
def liveCycle (st : DataReaderState) (env : FetchEnv) :
    List Event × DataReaderState :=
  let r := fetchData st env
  if r.1 then
    (Event.postData r.2.1 ::
      (if r.2.2.saveReplayOpen ∧ 0 < r.2.1.packetId then [Event.record r.2.1] else []),
     r.2.2)
  else if env.handlerState = HandlerState.stateOk then
    ([], r.2.2)
  else if env.simRunning then
    ([Event.disconnectedFromSim], { r.2.2 with connected := false })
  else
    ([Event.disconnectedFromSim, Event.connectAttempt], { r.2.2 with connected := true })

/-- Result of one `SimConnectData::read` from the playback file, as observed
by `run`: a packet with status OK, or an error with its status text. -/
inductive ReadResult where
  | ok (d : SimConnectData)
  | err (text : String)
deriving DecidableEq, Repr

/-- Embedding of `DataReaderThread::closeReplay` (datareaderthread.cpp:293):
closes and releases both replay handles. -/
def closeReplay (st : DataReaderState) : DataReaderState :=
  { st with loadReplayOpen := false, saveReplayOpen := false }

/-- Embedding of the playback arm of the main loop body
(datareaderthread.cpp:97): read the next record; on status OK, seek back to
the start-of-data offset if at end of file, then post the packet; otherwise
report the error and close the replay handles. -/
def replayCycle (records : List ReadResult) (st : DataReaderState) :
    List Event × DataReaderState :=
  match records.get? st.replayPos with
  | some (ReadResult.ok d) =>
      let pos := if st.replayPos + 1 = records.length then 0 else st.replayPos + 1
      ([Event.postData d], { st with replayPos := pos })
  | some (ReadResult.err t) =>
      ([Event.logMessage t true], closeReplay st)
  | none =>
      ([Event.logMessage "read past end" true], closeReplay st)

/-- One iteration of the main `while(!terminate)` loop of
`DataReaderThread::run` (datareaderthread.cpp:93): the playback arm when
`loadReplayFile != nullptr`, the live/Recording arm otherwise. -/
def loopIter (records : List ReadResult) (st : DataReaderState) (env : FetchEnv) :
    List Event × DataReaderState :=
  if st.loadReplayOpen then replayCycle records st else liveCycle st env

/-- Several iterations of the main loop, one oracle environment per cycle,
accumulating the emitted events. -/
def runLoop (records : List ReadResult) :
    DataReaderState → List FetchEnv → List Event × DataReaderState
  | st, [] => ([], st)
  | st, e :: es =>
      let r := loopIter records st e
      let rest := runLoop records r.2 es
      (r.1 ++ rest.1, rest.2)

/-- Embedding of the startup of `DataReaderThread::run`
(datareaderthread.cpp:81): `connectToSimulator` is invoked iff no playback
file is open after `setupReplay` (replay is "always connected"). -/
def runConnectsAtStart (loadReplayOpen : Bool) : Bool :=
  !loadReplayOpen

/-- Embedding of `DataReaderThread::setWeatherRequest`
(datareaderthread.cpp:321): when `saveReplayFile != nullptr` (the record
handle!), post a dummy default packet and drop the request; otherwise store
the request in the handler under the mutex (and wake the loop). -/
def setWeatherRequest (st : DataReaderState) (request : WeatherRequest) :
    List Event × DataReaderState :=
  if st.saveReplayOpen then
    ([Event.postData SimConnectData.empty], st)
  else
    ([], { st with handler := st.handler.addWeatherRequest request })

/-- Packet ids delivered to the host: the `packetId`s of the
`postSimConnectData` notifications, in order. -/
def deliveredIds : List Event → List Nat
  | [] => []
  | Event.postData d :: es => d.packetId :: deliveredIds es
  | _ :: es => deliveredIds es

/-- The ids a no-weather run starting at counter `i` delivers: position `k`
contributes `i + k` exactly when that cycle's telemetry fetch succeeds. -/
def okIds : Nat → List FetchEnv → List Nat
  | _, [] => []
  | i, e :: es => if e.fetchOk then i :: okIds (i + 1) es else okIds (i + 1) es

/-- Byte offset at which the framed data section starts
(`REPLAY_FILE_DATA_START_OFFSET`): 12 bytes, three `u32` header fields.
Value modelled from the spec (the constant lives in the missing header). -/
def REPLAY_FILE_DATA_START_OFFSET : Nat := 12

/-- Fixed magic constant of the replay-file format
(`REPLAY_FILE_MAGIC_NUMBER`). Modelled from the spec: its numeric value
lives in the missing header; no claim depends on the value, only on its
fixedness. -/
def REPLAY_FILE_MAGIC_NUMBER : Nat := 3141592653

/-- Fixed format-version constant of the replay-file format
(`REPLAY_FILE_VERSION`). Modelled from the spec, as for the magic number. -/
def REPLAY_FILE_VERSION : Nat := 1

/-- Embedding of the playback-validation path of
`DataReaderThread::setupReplay` (datareaderthread.cpp:228), as a function of
the file's size and its decoded magic/version header words: the size must
strictly exceed the data-start offset, then the magic is checked, then the
version; each failure produces the corresponding descriptive error
message. -/
def setupReplayLoad (fileSize magicNumber version : Nat) : Except String Unit :=
  if REPLAY_FILE_DATA_START_OFFSET < fileSize then
    if magicNumber ≠ REPLAY_FILE_MAGIC_NUMBER then
      Except.error "Is not a replay file - wrong magic number"
    else if version ≠ REPLAY_FILE_VERSION then
      Except.error "Wrong version"
    else
      Except.ok ()
  else
    Except.error "File is too small"

/-- Whether the playback handle is open after `setupReplay`: exactly when the
validation succeeded (every failure path runs `closeReplay` or deletes the
handle, leaving `loadReplayFile == nullptr`). -/
def setupReplayLoadOpen (fileSize magicNumber version : Nat) : Bool :=
  match setupReplayLoad fileSize magicNumber version with
  | Except.ok _ => true
  | Except.error _ => false

/-- A 32-bit word assembled from four bytes, used to relate the magic
constant to the header bytes of the file. -/
def word32 (b0 b1 b2 b3 : Nat) : Nat :=
  b0 + 256 * b1 + 65536 * b2 + 16777216 * b3

/-- Serialized token of the record/playback stream. Modelled from the spec:
the byte-level encoding belongs to the missing `SimConnectData` sources, so
records are modelled at field granularity, numbers and strings in a fixed
order understood by both writer and reader. -/
inductive Tok where
  | num (n : Nat)
  | str (s : String)
deriving DecidableEq, Repr

/-- Serialization of the `metars` mapping: a count followed by the key/value
strings of each entry in order. Modelled from the spec's fixed field
order. -/
def encodeMetars (ms : List (String × String)) : List Tok :=
  Tok.num ms.length :: ms.flatMap (fun kv => [Tok.str kv.1, Tok.str kv.2])

/-- Serialization of the opaque payload: a count followed by its words.
Modelled from the spec's fixed field order. -/
def encodePayload (p : List Nat) : List Tok :=
  Tok.num p.length :: p.map Tok.num

/-- Numeric code of a status value in the stream. -/
def statusCode : ScStatus → Nat
  | ScStatus.ok => 0
  | ScStatus.error => 1

/-- Decoding of a status code. -/
def decodeStatus : Nat → Option ScStatus
  | 0 => some ScStatus.ok
  | 1 => some ScStatus.error
  | _ => none

/-- Embedding of `SimConnectData::write` at field granularity. Modelled from
the spec: status, error text, timestamp, packet id, metar mapping, payload,
in this fixed order. -/
def encodePacket (d : SimConnectData) : List Tok :=
  Tok.num (statusCode d.status) :: Tok.str d.statusText ::
    Tok.num d.packetTimestamp :: Tok.num d.packetId ::
      (encodeMetars d.metars ++ encodePayload d.payload)

/-- Reader of a count-prefixed metar mapping (the count has already been
read). -/
def decodeMetarsAux : Nat → List Tok → Option (List (String × String) × List Tok)
  | 0, ts => some ([], ts)
  | n + 1, Tok.str k :: Tok.str v :: ts =>
      (decodeMetarsAux n ts).map (fun r => ((k, v) :: r.1, r.2))
  | _ + 1, _ => none

/-- Reader of a count-prefixed payload (the count has already been read). -/
def decodePayloadAux : Nat → List Tok → Option (List Nat × List Tok)
  | 0, ts => some ([], ts)
  | n + 1, Tok.num v :: ts =>
      (decodePayloadAux n ts).map (fun r => (v :: r.1, r.2))
  | _ + 1, _ => none

/-- Embedding of `SimConnectData::read` at field granularity: parses one
framed record and returns it with the remaining stream, or `none` on a
malformed record (surfaced as a non-OK status in `run`). -/
def decodePacket : List Tok → Option (SimConnectData × List Tok)
  | Tok.num s :: Tok.str txt :: Tok.num ts :: Tok.num pid :: Tok.num nm :: rest =>
      match decodeStatus s with
      | none => none
      | some status =>
          match decodeMetarsAux nm rest with
          | none => none
          | some (ms, rest1) =>
              match rest1 with
              | Tok.num np :: rest2 =>
                  match decodePayloadAux np rest2 with
                  | none => none
                  | some (pl, rest3) =>
                      some ({ packetId := pid, packetTimestamp := ts, status := status,
                              statusText := txt, metars := ms, payload := pl }, rest3)
              | _ => none
  | _ => none

/-- Header written by the recording path of `setupReplay`
(datareaderthread.cpp:286): magic, version, update rate. -/
def encodeHeader (updateRateMs : Nat) : List Tok :=
  [Tok.num REPLAY_FILE_MAGIC_NUMBER, Tok.num REPLAY_FILE_VERSION, Tok.num updateRateMs]

/-- The file a Recording run writes: the header followed by the framed
records of the appended packets, in order. -/
def recordFile (updateRateMs : Nat) (ps : List SimConnectData) : List Tok :=
  encodeHeader updateRateMs ++ ps.flatMap encodePacket

/-- Opening a token-level file for playback: validate magic and version,
expose the recorded update rate and the data section (everything after the
12-byte header offset). -/
def openPlayback : List Tok → Option (Nat × List Tok)
  | Tok.num m :: Tok.num v :: Tok.num r :: rest =>
      if m = REPLAY_FILE_MAGIC_NUMBER ∧ v = REPLAY_FILE_VERSION then
        some (r, rest)
      else
        none
  | _ => none

/-- Sequence of packets a playback session posts: each step decodes one
record from the remaining stream `rem`; when the read ends exactly at end of
file, the reader seeks back to the start-of-data section `d`
(datareaderthread.cpp:104); a malformed record abandons the session. `k` is
the number of loop iterations performed. -/
def readsAux (d : List Tok) : Nat → List Tok → List SimConnectData
  | 0, _ => []
  | k + 1, rem =>
      match decodePacket rem with
      | none => []
      | some (p, rem') => p :: readsAux d k (if rem' = [] then d else rem')

/-- Embedding of `DataReaderThread::connectToSimulator`
(datareaderthread.cpp:46): once per second, check the terminate flag; every
`reconnectRateSec` ticks attempt `handler->connect()` and stop on success
(resetting the tick counter on failure); otherwise sleep one second and
retry. `term`/`connOk` are tick-indexed oracles for the flag and the
connect outcome, `t` the current tick, `counter` the loop counter; returns
the exit tick and whether the exit was a successful connect, or `none` when
the fuel runs out before any exit. -/
def connectToSimulator (term connOk : Nat → Bool) (reconnectRateSec : Nat) :
    Nat → Nat → Nat → Option (Nat × Bool)
  | 0, _, _ => none
  | fuel + 1, counter, t =>
      if term t then some (t, false)
      else if counter % reconnectRateSec = 0 && connOk t then some (t, true)
      else
        connectToSimulator term connOk reconnectRateSec fuel
          ((if counter % reconnectRateSec = 0 then 0 else counter) + 1) (t + 1)

/-- A cycle environment with a successful telemetry fetch and a healthy
adapter. -/
def envOk : FetchEnv :=
  { fetchOk := true, fetched := SimConnectData.empty,
    weatherFetch := fun _ => SimConnectData.empty,
    handlerState := HandlerState.stateOk, simRunning := true, now := 100 }

/-- A cycle environment whose telemetry fetch fails while the adapter state
stays `STATEOK`. -/
def envFail : FetchEnv :=
  { envOk with fetchOk := false }

/-- A cycle environment whose telemetry fetch fails with the adapter in an
error state while the sim is still running. -/
def envFailAlive : FetchEnv :=
  { envOk with fetchOk := false, handlerState := HandlerState.stateFailed }

/-- Thread state of a Playing session: the playback handle open, the record
handle closed (they are mutually exclusive in `setupReplay`), no pending
weather request, the id counter at its initial value 1. -/
def stPlaying : DataReaderState :=
  { handler := { weatherRequest := WeatherRequest.empty }, nextPacketId := 1,
    connected := true, loadReplayOpen := true, replayPos := 0, saveReplayOpen := false }

/-- Thread state of a Live session: both replay handles closed. -/
def stLive : DataReaderState :=
  { stPlaying with loadReplayOpen := false }

/-- A one-record playback stream whose single record is malformed. -/
def recordsErr : List ReadResult := [ReadResult.err "malformed record"]

/-- A terminate-flag oracle that is raised from tick 3 onwards. -/
def termAt3 : Nat → Bool := fun t => decide (3 ≤ t)

/-- A connect oracle that never succeeds. -/
def connNever : Nat → Bool := fun _ => false

/-- Unfolding lemma for one step of `runLoop`. -/
theorem runLoop_cons (records : List ReadResult) (st : DataReaderState)
    (e : FetchEnv) (es : List FetchEnv) :
    runLoop records st (e :: es) =
      ((loopIter records st e).1 ++ (runLoop records (loopIter records st e).2 es).1,
       (runLoop records (loopIter records st e).2 es).2) := rfl

/-- Delivered ids distribute over appended event lists. -/
theorem deliveredIds_append (a b : List Event) :
    deliveredIds (a ++ b) = deliveredIds a ++ deliveredIds b := by
  induction a with
  | nil => rfl
  | cons e es ih => cases e <;> simp [deliveredIds, ih]

/-- With no pending weather query, `fetchData` takes the telemetry branch:
the packet gets `nextPacketId`, the counter advances by one, the slot is
cleared, and the return value is the adapter's fetch outcome. -/
theorem fetchData_telemetry (st : DataReaderState) (env : FetchEnv)
    (h : st.handler.weatherRequest.valid = false) :
    fetchData st env =
      (env.fetchOk,
       { env.fetched with packetId := st.nextPacketId, packetTimestamp := env.now },
       { st with handler := st.handler.addWeatherRequest WeatherRequest.empty,
                 nextPacketId := st.nextPacketId + 1 }) := by
  simp [fetchData, h]

/-- Summary of one live cycle with no pending weather query: exactly the id
`nextPacketId` is delivered when the fetch succeeds and nothing otherwise,
the session mode is unchanged, the slot stays clear, and the counter always
advances by one (even on a failed fetch). -/
theorem liveCycle_no_weather (st : DataReaderState) (env : FetchEnv)
    (h : st.handler.weatherRequest.valid = false) :
    deliveredIds (liveCycle st env).1 = (if env.fetchOk then [st.nextPacketId] else []) ∧
    (liveCycle st env).2.loadReplayOpen = st.loadReplayOpen ∧
    (liveCycle st env).2.handler.weatherRequest.valid = false ∧
    (liveCycle st env).2.nextPacketId = st.nextPacketId + 1 := by
  unfold liveCycle
  rw [fetchData_telemetry st env h]
  by_cases hf : env.fetchOk = true <;>
    by_cases h3 : env.handlerState = HandlerState.stateOk <;>
    by_cases h4 : env.simRunning = true <;>
    simp [hf, h3, h4, deliveredIds, Handler.addWeatherRequest, WeatherRequest.empty] <;>
    split <;> simp [deliveredIds]

/-- Delivered ids of a whole live/Recording run with no weather
interleaving: position `k` of the cycle list contributes `nextPacketId + k`
exactly when that cycle's fetch succeeds. -/
theorem deliveredIds_runLoop (records : List ReadResult) (envs : List FetchEnv) :
    ∀ st : DataReaderState, st.loadReplayOpen = false →
      st.handler.weatherRequest.valid = false →
      deliveredIds (runLoop records st envs).1 = okIds st.nextPacketId envs := by
  induction envs with
  | nil => intro st _ _; rfl
  | cons e es ih =>
      intro st h1 h2
      rw [runLoop_cons, deliveredIds_append]
      have hiter : loopIter records st e = liveCycle st e := by
        simp [loopIter, h1]
      rw [hiter]
      obtain ⟨ha, hb, hc, hd⟩ := liveCycle_no_weather st e h2
      rw [ha, ih _ (by rw [hb, h1]) hc, hd]
      by_cases hf : e.fetchOk = true <;> simp [okIds, hf]

/-- Every id in `okIds i envs` is at least `i`. -/
theorem okIds_le (m : Nat) (envs : List FetchEnv) :
    ∀ i, m ∈ okIds i envs → i ≤ m := by
  induction envs with
  | nil => intro i h; cases h
  | cons e es ih =>
      intro i h
      by_cases hf : e.fetchOk = true
      · simp only [okIds, if_pos hf, List.mem_cons] at h
        rcases h with h | h
        · omega
        · have := ih (i + 1) h
          omega
      · rw [okIds, if_neg hf] at h
        have := ih (i + 1) h
        omega

/-- The id a failed cycle would have consumed is absent from `okIds`. -/
theorem okIds_not_mem (envs : List FetchEnv) :
    ∀ i k, ∀ hk : k < envs.length, (envs.get ⟨k, hk⟩).fetchOk = false →
      i + k ∉ okIds i envs := by
  induction envs with
  | nil => intro i k hk; cases hk
  | cons e es ih =>
      intro i k hk hf
      cases k with
      | zero =>
          have hf0 : e.fetchOk = false := hf
          rw [okIds, if_neg (by simp [hf0])]
          intro hmem
          have := okIds_le (i + 0) es (i + 1) hmem
          omega
      | succ k' =>
          have hk' : k' < es.length := Nat.lt_of_succ_lt_succ hk
          have hf' : (es.get ⟨k', hk'⟩).fetchOk = false := hf
          have htail := ih (i + 1) k' hk' hf'
          have harith : i + (k' + 1) = (i + 1) + k' := by omega
          rw [harith]
          by_cases he : e.fetchOk = true
          · rw [okIds, if_pos he]
            intro hmem
            rcases List.mem_cons.mp hmem with hmem | hmem
            · omega
            · exact htail hmem
          · rw [okIds, if_neg he]
            exact htail

/-- When every fetch succeeds, `okIds i envs` is the gap-free run
`i, i+1, …`. -/
theorem okIds_all_ok (envs : List FetchEnv) (h : ∀ e ∈ envs, e.fetchOk = true) :
    ∀ i, okIds i envs = List.range' i envs.length := by
  induction envs with
  | nil => intro i; rfl
  | cons e es ih =>
      intro i
      rw [okIds, if_pos (h e (List.mem_cons_self e es))]
      rw [ih (fun x hx => h x (List.mem_cons_of_mem e hx)) (i + 1)]
      rfl

/-- C1: in Playing mode (`loadReplayFile` open, `saveReplayFile` null),
`setWeatherRequest` takes the else-branch because its guard tests
`saveReplayFile != nullptr` — the record handle, not the playback handle —
so the query IS stored in the protocol adapter and NO packet is notified,
contradicting both the claim and the code's own comment ("Post a dummy
weather reply if replaying, do not pass to handler"). This theorem
evaluates the code at the failing input. -/
theorem c1_playing_submit_code_eval :
    (setWeatherRequest stPlaying { valid := true, descriptor := "EDDF" }).1 = [] ∧
    (setWeatherRequest stPlaying { valid := true, descriptor := "EDDF" }).2.handler.weatherRequest
      = { valid := true, descriptor := "EDDF" } := by
  exact ⟨rfl, rfl⟩

/-- C3 counterexample: a live cycle whose fetch fails with the adapter in an
error state while the sim is still running clears the `connected` flag and
emits a disconnect notification — the claim says the loop continues without
state change whenever the host is alive. -/
theorem c3_counterexample :
    (liveCycle stLive envFailAlive).1 = [Event.disconnectedFromSim] ∧
    (liveCycle stLive envFailAlive).2.connected = false ∧
    stLive.connected = true := by
  refine ⟨rfl, rfl, rfl⟩

/-- C3 amended: a live-mode cycle whose telemetry fetch fails while the
adapter state is still `STATEOK` is a no-op: no notification is emitted
(in particular no disconnect), and the `connected` flag and session mode
are unchanged. When the adapter reports an error state the code clears
`connected` and notifies disconnect even if the host is alive. -/
theorem c3_transient_failure_noop (st : DataReaderState) (env : FetchEnv)
    (hw : st.handler.weatherRequest.valid = false)
    (hf : env.fetchOk = false)
    (hs : env.handlerState = HandlerState.stateOk) :
    (liveCycle st env).1 = [] ∧
    (liveCycle st env).2.connected = st.connected ∧
    (liveCycle st env).2.loadReplayOpen = st.loadReplayOpen ∧
    (liveCycle st env).2.saveReplayOpen = st.saveReplayOpen := by
  simp [liveCycle, fetchData, hw, hf, hs]

/-- C3 amended, witnessed at a concrete transient failure. -/
theorem c3_transient_failure_noop_witness :
    (liveCycle stLive envFail).1 = [] ∧
    (liveCycle stLive envFail).2.connected = stLive.connected ∧
    (liveCycle stLive envFail).2.loadReplayOpen = stLive.loadReplayOpen ∧
    (liveCycle stLive envFail).2.saveReplayOpen = stLive.saveReplayOpen :=
  c3_transient_failure_noop stLive envFail rfl rfl rfl

/-- C6: a weather-only cycle forces `packetId = 0` and leaves the telemetry
counter `nextPacketId` untouched, and the record-file append in the main
loop only ever happens for packets with `packetId > 0`. -/
theorem c6_weather_zero_id_never_recorded :
    (∀ st env, st.handler.weatherRequest.valid = true →
        (fetchData st env).2.1.packetId = 0 ∧
        (fetchData st env).2.2.nextPacketId = st.nextPacketId) ∧
    (∀ st env d, Event.record d ∈ (liveCycle st env).1 → 0 < d.packetId) := by
  constructor
  · intro st env hw
    simp [fetchData, hw]
  · intro st env d hmem
    by_cases h1 : (fetchData st env).1 = true <;>
      by_cases h2 : (fetchData st env).2.2.saveReplayOpen = true ∧ 0 < (fetchData st env).2.1.packetId <;>
      by_cases h3 : env.handlerState = HandlerState.stateOk <;>
      by_cases h4 : env.simRunning = true <;>
      simp [liveCycle, h1, h2, h3, h4] at hmem <;>
      (rw [hmem]; exact h2.2)

/-- C6, witnessed at a concrete weather-only cycle: the pending slot is
valid, the reply id is 0 and the counter is unchanged. -/
theorem c6_weather_zero_id_never_recorded_witness :
    (fetchData { stLive with handler := { weatherRequest := { valid := true, descriptor := "EDDF" } } } envOk).2.1.packetId = 0 ∧
    (fetchData { stLive with handler := { weatherRequest := { valid := true, descriptor := "EDDF" } } } envOk).2.2.nextPacketId
      = ({ stLive with handler := { weatherRequest := { valid := true, descriptor := "EDDF" } } } : DataReaderState).nextPacketId :=
  c6_weather_zero_id_never_recorded.1
    { stLive with handler := { weatherRequest := { valid := true, descriptor := "EDDF" } } } envOk rfl

/-- C9: in a non-Recording session, submitting Q1 then Q2 before either is
serviced leaves exactly Q2 in the single pending slot (latest wins); the
next `fetchData` performs one weather fetch using Q2's descriptor and
clears the slot, so the following `fetchData` takes the telemetry branch
(it increments the counter, which a weather cycle never does). -/
theorem c9_latest_wins (st : DataReaderState) (q1 q2 : WeatherRequest)
    (env env2 : FetchEnv)
    (hsave : st.saveReplayOpen = false) (hq2 : q2.valid = true) :
    ((setWeatherRequest (setWeatherRequest st q1).2 q2).2.handler.weatherRequest = q2) ∧
    ((fetchData (setWeatherRequest (setWeatherRequest st q1).2 q2).2 env).2.1 =
        { env.weatherFetch q2 with packetId := 0, packetTimestamp := env.now }) ∧
    ((fetchData (setWeatherRequest (setWeatherRequest st q1).2 q2).2 env).2.2.handler.weatherRequest.valid = false) ∧
    ((fetchData (fetchData (setWeatherRequest (setWeatherRequest st q1).2 q2).2 env).2.2 env2).2.2.nextPacketId =
        (fetchData (setWeatherRequest (setWeatherRequest st q1).2 q2).2 env).2.2.nextPacketId + 1) := by
  simp [setWeatherRequest, fetchData, Handler.addWeatherRequest, hsave, hq2, WeatherRequest.empty]

/-- C9, witnessed at two concrete queries submitted back to back. -/
theorem c9_latest_wins_witness :
    ((setWeatherRequest (setWeatherRequest stLive { valid := true, descriptor := "Q1" }).2 { valid := true, descriptor := "Q2" }).2.handler.weatherRequest = { valid := true, descriptor := "Q2" }) ∧
    ((fetchData (setWeatherRequest (setWeatherRequest stLive { valid := true, descriptor := "Q1" }).2 { valid := true, descriptor := "Q2" }).2 envOk).2.1 =
        { envOk.weatherFetch { valid := true, descriptor := "Q2" } with packetId := 0, packetTimestamp := envOk.now }) ∧
    ((fetchData (setWeatherRequest (setWeatherRequest stLive { valid := true, descriptor := "Q1" }).2 { valid := true, descriptor := "Q2" }).2 envOk).2.2.handler.weatherRequest.valid = false) ∧
    ((fetchData (fetchData (setWeatherRequest (setWeatherRequest stLive { valid := true, descriptor := "Q1" }).2 { valid := true, descriptor := "Q2" }).2 envOk).2.2 envOk).2.2.nextPacketId =
        (fetchData (setWeatherRequest (setWeatherRequest stLive { valid := true, descriptor := "Q1" }).2 { valid := true, descriptor := "Q2" }).2 envOk).2.2.nextPacketId + 1) :=
  c9_latest_wins stLive { valid := true, descriptor := "Q1" } { valid := true, descriptor := "Q2" } envOk envOk rfl rfl

/-- C2 counterexample: with a playback stream whose first record is
malformed, the very next loop iteration already performs a live telemetry
fetch and posts a further packet (id 1) — the code closes the replay and
falls through to the live arm, instead of producing no further packets and
never fetching live. -/
theorem c2_counterexample :
    (runLoop recordsErr stPlaying [envOk, envOk]).1 =
      [Event.logMessage "malformed record" true,
       Event.postData { SimConnectData.empty with packetId := 1, packetTimestamp := 100 }] := rfl

/-- C2 amended: a malformed record is reported once and closes the replay
handles; every later iteration runs the live arm (live fetches, with
reconnects on dead-sim failures), and a playback file rejected at open
likewise leaves no playback handle, so `run` starts with a live
`connectToSimulator`. -/
theorem c2_replay_error_falls_back_live (records : List ReadResult)
    (st : DataReaderState) (env : FetchEnv) (t : String)
    (h1 : st.loadReplayOpen = true)
    (h2 : records.get? st.replayPos = some (ReadResult.err t)) :
    (loopIter records st env).1 = [Event.logMessage t true] ∧
    (loopIter records st env).2.loadReplayOpen = false ∧
    (∀ (records' : List ReadResult) (st' : DataReaderState) (env' : FetchEnv),
        st'.loadReplayOpen = false → loopIter records' st' env' = liveCycle st' env') ∧
    runConnectsAtStart false = true := by
  rw [List.get?_eq_getElem?] at h2
  refine ⟨?_, ?_, ?_, rfl⟩
  · simp [loopIter, h1, replayCycle, h2]
  · simp [loopIter, h1, replayCycle, h2, closeReplay]
  · intro records' st' env' h
    simp [loopIter, h]

/-- C2 amended, witnessed at the concrete malformed stream. -/
theorem c2_replay_error_falls_back_live_witness :
    (loopIter recordsErr stPlaying envOk).1 = [Event.logMessage "malformed record" true] ∧
    (loopIter recordsErr stPlaying envOk).2.loadReplayOpen = false ∧
    (∀ (records' : List ReadResult) (st' : DataReaderState) (env' : FetchEnv),
        st'.loadReplayOpen = false → loopIter records' st' env' = liveCycle st' env') ∧
    runConnectsAtStart false = true :=
  c2_replay_error_falls_back_live recordsErr stPlaying envOk "malformed record" rfl rfl

/-- C4 counterexample: a live run of three cycles whose middle fetch fails
(adapter state still OK) delivers ids `[1, 3]` — strictly increasing but
with a gap at 2, so the delivered ids are not the sequence 1, 2, …. -/
theorem c4_counterexample :
    deliveredIds (runLoop [] stLive [envOk, envFail, envOk]).1 = [1, 3] ∧
    2 ∉ deliveredIds (runLoop [] stLive [envOk, envFail, envOk]).1 := by
  exact ⟨rfl, by decide⟩

/-- C4 amended: in a live/Recording run with no weather interleaving in
which every telemetry fetch succeeds, the delivered ids are exactly the
gap-free, repeat-free sequence 1, 2, …, n. -/
theorem c4_all_success_ids (st : DataReaderState) (records : List ReadResult)
    (envs : List FetchEnv)
    (h1 : st.loadReplayOpen = false)
    (h2 : st.handler.weatherRequest.valid = false)
    (h3 : st.nextPacketId = 1)
    (hok : ∀ e ∈ envs, e.fetchOk = true) :
    deliveredIds (runLoop records st envs).1 = List.range' 1 envs.length := by
  rw [deliveredIds_runLoop records envs st h1 h2, h3, okIds_all_ok envs hok 1]

/-- C4 amended, witnessed on a three-cycle all-success run. -/
theorem c4_all_success_ids_witness :
    deliveredIds (runLoop [] stLive [envOk, envOk, envOk]).1 = List.range' 1 3 :=
  c4_all_success_ids stLive [] [envOk, envOk, envOk] rfl rfl rfl (by decide)

/-- C5: with no pending weather query, every `fetchData` call advances
`nextPacketId` by exactly one — also when the adapter fetch fails — and in
a no-weather run the id consumed by a failed cycle (`nextPacketId + k` for a
failure at position `k`) never appears among the delivered ids. -/
theorem c5_counter_increments_on_failure :
    (∀ (st : DataReaderState) (env : FetchEnv),
        st.handler.weatherRequest.valid = false →
        (fetchData st env).2.2.nextPacketId = st.nextPacketId + 1) ∧
    (∀ (st : DataReaderState) (records : List ReadResult) (envs : List FetchEnv)
        (k : Nat) (hk : k < envs.length),
        st.loadReplayOpen = false → st.handler.weatherRequest.valid = false →
        (envs.get ⟨k, hk⟩).fetchOk = false →
        st.nextPacketId + k ∉ deliveredIds (runLoop records st envs).1) := by
  constructor
  · intro st env h
    simp [fetchData, h]
  · intro st records envs k hk h1 h2 hf
    rw [deliveredIds_runLoop records envs st h1 h2]
    exact okIds_not_mem envs st.nextPacketId k hk hf

/-- C5, witnessed: the failed middle cycle consumes id 2, which is absent
from the delivered ids. -/
theorem c5_counter_increments_on_failure_witness :
    (fetchData stLive envFail).2.2.nextPacketId = stLive.nextPacketId + 1 ∧
    stLive.nextPacketId + 1 ∉ deliveredIds (runLoop [] stLive [envOk, envFail, envOk]).1 :=
  ⟨c5_counter_increments_on_failure.1 stLive envFail rfl,
   c5_counter_increments_on_failure.2 stLive [] [envOk, envFail, envOk] 1 (by decide) rfl rfl rfl⟩

/-- The playback validation succeeds exactly when the size strictly exceeds
the header offset and magic and version both match their constants. -/
theorem setupReplayLoad_ok_iff (s m v : Nat) :
    setupReplayLoad s m v = Except.ok () ↔
      (REPLAY_FILE_DATA_START_OFFSET < s ∧ m = REPLAY_FILE_MAGIC_NUMBER ∧
        v = REPLAY_FILE_VERSION) := by
  unfold setupReplayLoad
  split_ifs with hs hm hv <;> simp_all

/-- C8: a file opens for playback iff its size strictly exceeds the 12-byte
header offset and magic and version equal the expected constants; any
failing file is rejected with a descriptive error message and leaves the
playback handle closed; a flipped magic byte in particular changes the
magic word away from the constant; and with the playback handle closed the
loop never takes the replay arm, so the file yields zero replay packets. -/
theorem c8_playback_open_validation :
    (∀ s m v, setupReplayLoad s m v = Except.ok () ↔
        (12 < s ∧ m = REPLAY_FILE_MAGIC_NUMBER ∧ v = REPLAY_FILE_VERSION)) ∧
    (∀ s m v, ¬(12 < s ∧ m = REPLAY_FILE_MAGIC_NUMBER ∧ v = REPLAY_FILE_VERSION) →
        ∃ msg, setupReplayLoad s m v = Except.error msg ∧
          setupReplayLoadOpen s m v = false) ∧
    (∀ b0 b0' b1 b2 b3 : Nat, b0 < 256 → b0' < 256 → b0' ≠ b0 →
        word32 b0 b1 b2 b3 = REPLAY_FILE_MAGIC_NUMBER →
        word32 b0' b1 b2 b3 ≠ REPLAY_FILE_MAGIC_NUMBER) ∧
    (∀ (records : List ReadResult) (st : DataReaderState) (env : FetchEnv),
        st.loadReplayOpen = false → loopIter records st env = liveCycle st env) := by
  refine ⟨fun s m v => setupReplayLoad_ok_iff s m v, ?_, ?_, ?_⟩
  · intro s m v h
    cases hE : setupReplayLoad s m v with
    | ok u =>
        cases u
        exact absurd ((setupReplayLoad_ok_iff s m v).mp hE) h
    | error msg =>
        exact ⟨msg, rfl, by simp [setupReplayLoadOpen, hE]⟩
  · intro b0 b0' b1 b2 b3 hb0 hb0' hne heq
    unfold word32 at heq ⊢
    omega
  · intro records st env h
    simp [loopIter, h]

/-- C8, witnessed: a 13-byte valid file opens; a 12-byte file is rejected
and leaves the handle closed; flipping the low magic byte (77 to 78 in the
modelled constant) invalidates the magic word; a closed handle routes the
loop to the live arm. -/
theorem c8_playback_open_validation_witness :
    (setupReplayLoad 13 REPLAY_FILE_MAGIC_NUMBER REPLAY_FILE_VERSION = Except.ok ()) ∧
    (∃ msg, setupReplayLoad 12 REPLAY_FILE_MAGIC_NUMBER REPLAY_FILE_VERSION = Except.error msg ∧
        setupReplayLoadOpen 12 REPLAY_FILE_MAGIC_NUMBER REPLAY_FILE_VERSION = false) ∧
    (word32 78 230 64 187 ≠ REPLAY_FILE_MAGIC_NUMBER) ∧
    (loopIter recordsErr stLive envOk = liveCycle stLive envOk) :=
  ⟨(c8_playback_open_validation.1 13 REPLAY_FILE_MAGIC_NUMBER REPLAY_FILE_VERSION).mpr
      (by refine ⟨by omega, rfl, rfl⟩),
   c8_playback_open_validation.2.1 12 REPLAY_FILE_MAGIC_NUMBER REPLAY_FILE_VERSION
      (by intro h; omega),
   c8_playback_open_validation.2.2.1 77 78 230 64 187 (by omega) (by omega) (by omega)
      (by decide),
   c8_playback_open_validation.2.2.2 recordsErr stLive envOk rfl⟩

/-- C10: the reconnect wait checks the terminate flag once per tick (one
second apart); if the flag holds from tick `k` on and the loop is still
running at some tick `t0 ≤ k` with enough fuel, `connectToSimulator` exits
at a tick no later than `k` — so cancellation requested mid-sleep is
observed at the very next one-second check. -/
theorem c10_cancel_within_one_tick (term connOk : Nat → Bool) (rate k : Nat) :
    ∀ fuel t0 counter, (∀ u, k ≤ u → term u = true) → t0 ≤ k → k < t0 + fuel →
      ∃ te b, connectToSimulator term connOk rate fuel counter t0 = some (te, b) ∧
        te ≤ k := by
  intro fuel
  induction fuel with
  | zero =>
      intro t0 counter h1 h2 h3
      exact absurd h2 (by omega)
  | succ f ih =>
      intro t0 counter h1 h2 h3
      by_cases ht : term t0 = true
      · exact ⟨t0, false, by simp [connectToSimulator, ht], h2⟩
      · have ht0 : t0 < k := by
          rcases Nat.lt_or_ge t0 k with h | h
          · exact h
          · exact absurd (h1 t0 h) ht
        by_cases hc : (counter % rate = 0 && connOk t0) = true
        · exact ⟨t0, true, by simp [connectToSimulator, ht, hc], h2⟩
        · obtain ⟨te, b, heq, hle⟩ :=
            ih (t0 + 1) ((if counter % rate = 0 then 0 else counter) + 1) h1
              (by omega) (by omega)
          exact ⟨te, b, by rw [connectToSimulator, if_neg (by simp [ht]), if_neg hc]; exact heq, hle⟩

/-- C10, witnessed: with the flag raised from tick 3 and no successful
connect, the loop started at tick 0 exits by tick 3. -/
theorem c10_cancel_within_one_tick_witness :
    ∃ te b, connectToSimulator termAt3 connNever 10 5 0 0 = some (te, b) ∧ te ≤ 3 :=
  c10_cancel_within_one_tick termAt3 connNever 10 3 5 0 0
    (fun u hu => by simp [termAt3, hu]) (by omega) (by omega)

/-- The metar-mapping reader inverts the metar-mapping writer, leaving the
rest of the stream intact. -/
theorem decodeMetarsAux_encode (ms : List (String × String)) (rest : List Tok) :
    decodeMetarsAux ms.length
      (ms.flatMap (fun kv => [Tok.str kv.1, Tok.str kv.2]) ++ rest) = some (ms, rest) := by
  induction ms with
  | nil => rfl
  | cons kv ms ih =>
      rw [List.flatMap_cons, List.length_cons]
      simp only [List.cons_append, List.nil_append]
      simp only [decodeMetarsAux]
      rw [ih]
      rfl

/-- The payload reader inverts the payload writer, leaving the rest of the
stream intact. -/
theorem decodePayloadAux_encode (p : List Nat) (rest : List Tok) :
    decodePayloadAux p.length (p.map Tok.num ++ rest) = some (p, rest) := by
  induction p with
  | nil => rfl
  | cons x p ih => simp [decodePayloadAux, ih]

/-- Status codes decode back to the status they encode. -/
theorem decodeStatus_statusCode (s : ScStatus) :
    decodeStatus (statusCode s) = some s := by
  cases s <;> rfl

/-- One framed record decodes back to the packet it serializes, leaving the
rest of the stream intact: the field-order contract between writer and
reader. -/
theorem decodePacket_encodePacket (d : SimConnectData) (rest : List Tok) :
    decodePacket (encodePacket d ++ rest) = some (d, rest) := by
  simp [encodePacket, encodeMetars, encodePayload, decodePacket,
        decodeStatus_statusCode, decodeMetarsAux_encode, decodePayloadAux_encode,
        List.append_assoc]

/-- A serialized record is never empty. -/
theorem encodePacket_ne_nil (d : SimConnectData) : encodePacket d ≠ [] := by
  simp [encodePacket]

/-- Reading through a data section that holds the records of `qs` yields
`qs` in order, and then continues from the start-of-data section `d`
(loop-on-EOF) with the remaining iteration budget. -/
theorem readsAux_flatMap (qs : List SimConnectData) (d : List Tok) :
    ∀ k, qs ≠ [] →
      readsAux d (qs.length + k) (qs.flatMap encodePacket) = qs ++ readsAux d k d := by
  induction qs with
  | nil => intro k h; cases h rfl
  | cons q qs ih =>
      intro k _
      cases qs with
      | nil =>
          have h1 : decodePacket (encodePacket q) = some (q, []) := by
            have h2 := decodePacket_encodePacket q []
            rwa [List.append_nil] at h2
          have hfuel : ([q] : List SimConnectData).length + k = k + 1 := by
            simp only [List.length_singleton]
            omega
          rw [hfuel]
          simp only [List.flatMap_cons, List.flatMap_nil, List.append_nil]
          rw [readsAux, h1]
          simp
      | cons q2 qs2 =>
          have h1 : decodePacket ((q :: q2 :: qs2).flatMap encodePacket) =
              some (q, (q2 :: qs2).flatMap encodePacket) := by
            rw [List.flatMap_cons]
            exact decodePacket_encodePacket q _
          have hne : (q2 :: qs2).flatMap encodePacket ≠ [] := by
            rw [List.flatMap_cons]
            intro hnil
            rcases List.append_eq_nil.mp hnil with ⟨h2, _⟩
            exact encodePacket_ne_nil q2 h2
          have hlen : (q :: q2 :: qs2).length + k = ((q2 :: qs2).length + k) + 1 := by
            simp [List.length_cons]
            omega
          rw [hlen, readsAux, h1]
          simp only [if_neg hne]
          rw [ih k (by simp)]
          rfl

/-- C7: the file a Recording run writes for telemetry packets P1..Pn
(n ≥ 1) — header then framed records — opens for playback (magic and
version match what the writer wrote, and the recorded update rate is
recovered), and n+1 sequential playback reads yield exactly P1..Pn in order
(each field identical, `packetId`, `status`, `metars`, `payload` included)
followed by P1 again: on end of file the reader seeks back to the
start-of-data offset. -/
theorem c7_record_playback_roundtrip (updateRateMs : Nat) (p : SimConnectData)
    (ps : List SimConnectData) :
    openPlayback (recordFile updateRateMs (p :: ps)) =
      some (updateRateMs, (p :: ps).flatMap encodePacket) ∧
    readsAux ((p :: ps).flatMap encodePacket) ((p :: ps).length + 1)
      ((p :: ps).flatMap encodePacket) = (p :: ps) ++ [p] := by
  constructor
  · simp [recordFile, encodeHeader, openPlayback]
  · rw [readsAux_flatMap (p :: ps) ((p :: ps).flatMap encodePacket) 1 (by simp)]
    simp [readsAux, decodePacket_encodePacket]

end Atools
